import Mathlib

/-!
Shallow embedding of the trading_smt frontend (smt-frontend) data layer and
dashboard logic, with theorems checking the natural-language specification
against it.

Sources embedded:
- `src/smt-frontend/src/services/api.ts` (apiRequest, updateSettings,
  validateSettings, fetchAllData);
- the dashboard variant `src/Pages/SMTTradingDashboard.tsx` together with its
  defensive `src/services/api.ts` (fetchMarketData / fetchSMTSignals /
  fetchKillzones / fetchSettings that catch all errors), and `loadData`;
- `src/components/SMTSignalsPanel.tsx` (three variants: filtered+sorted
  slice(0,6), slice(-6), slice(-3));
- `src/hooks/useApi.tsx` (execute retry loop) and useWebSocket (reconnect
  counter).

JavaScript numbers are modelled as rationals (ℚ), `Number.isInteger` as
denominator 1, JS objects keyed by string as association lists with JS
assignment semantics, and promise outcomes as `Except` values (a settled
promise is `.ok v` when fulfilled and `.error r` when rejected).
-/

/-! ## Data model (src/smt-frontend/src/types.ts) -/

/-- MarketData record; only the fields the embedded logic inspects. -/
structure MarketData where
  symbol : String
  current_price : ℚ
  deriving DecidableEq, Repr

/-- An SMT signal as the signal panel receives it at runtime.  The three
`has...` flags record whether the raw object actually carries the `id`,
`signal_type` and `timestamp` properties (the panel checks `'id' in signal`
etc. before trusting an entry). -/
structure SMTSignal where
  hasId : Bool
  hasSignalType : Bool
  hasTimestamp : Bool
  signal_type : String
  strength : ℚ
  timestamp : ℤ
  confirmation_status : Bool
  deriving DecidableEq, Repr

/-- Killzone payload; treated as opaque by every claim. -/
structure KillzoneInfo where
  current_session : Option String
  deriving DecidableEq, Repr

/-- Killzones response of the typed api.ts client; opaque payload. -/
structure KillzonesResponse where
  current : Option String
  deriving DecidableEq, Repr

/-- Health payload; treated as opaque by every claim. -/
structure HealthStatus where
  status : String
  deriving DecidableEq, Repr

/-- The full Settings record (types.ts `Settings`). -/
structure Settings where
  smt_strength_threshold : ℚ
  killzone_priorities : List ℚ
  refresh_interval : ℚ
  max_signals_display : ℚ
  divergence_threshold : ℚ
  confirmation_candles : ℚ
  volume_multiplier : ℚ
  london_open : String
  ny_open : String
  asia_open : String
  deriving DecidableEq, Repr

/-- `Partial<Settings>`: every field optional (`none` = field absent /
undefined). -/
structure SettingsPatch where
  smt_strength_threshold : Option ℚ
  killzone_priorities : Option (List ℚ)
  refresh_interval : Option ℚ
  max_signals_display : Option ℚ
  divergence_threshold : Option ℚ
  confirmation_candles : Option ℚ
  volume_multiplier : Option ℚ
  london_open : Option String
  ny_open : Option String
  asia_open : Option String
  deriving DecidableEq, Repr

/-- `Settings` viewed as a patch in which every field is provided. -/
def toPatch (s : Settings) : SettingsPatch :=
  ⟨some s.smt_strength_threshold, some s.killzone_priorities,
   some s.refresh_interval, some s.max_signals_display,
   some s.divergence_threshold, some s.confirmation_candles,
   some s.volume_multiplier, some s.london_open, some s.ny_open,
   some s.asia_open⟩

/-! ## apiRequest (src/smt-frontend/src/services/api.ts, lines 29-61) -/

/-- The ApiError class: a message and an HTTP status (0 for non-HTTP
failures). -/
structure ApiError where
  message : String
  status : ℕ
  deriving DecidableEq, Repr

/-- Result of `JSON.parse` on a non-OK response body, as far as the error
path inspects it: JSON `null` (property access on it throws), an object
with an optional string `detail` property, or any other JSON value (whose
`detail` access yields `undefined`). -/
inductive JsonParsed where
  | jnull
  | jobj (detail : Option String)
  | jother
  deriving DecidableEq, Repr

/-- A non-OK response body: its raw text and, when `JSON.parse` succeeds,
the parsed value (`none` when parsing throws). -/
structure ErrorBody where
  text : String
  parsed : Option JsonParsed
  deriving DecidableEq, Repr

/-- Every way the underlying `fetch` interaction can settle, for a request
expecting a JSON body of type `α`. -/
inductive HttpOutcome (α : Type) where
  | okJson (body : α)
  | okText (body : String)
  | httpError (status : ℕ) (body : ErrorBody)
  | thrownTypeError (msg : String)
  | thrownOther (display : String)

/-- A fulfilled apiRequest: parsed JSON data or raw text, depending on the
response content type. -/
inductive ApiResult (α : Type) where
  | jsonData (a : α)
  | textData (s : String)
  deriving DecidableEq, Repr

/-- JS `a || b` on strings: empty string is falsy. -/
def jsOr (s fallback : String) : String := if s = "" then fallback else s

/-- JS `m.includes "fetch"`. -/
def includesFetch (m : String) : Bool := decide ("fetch".data <:+: m.data)

/-- The error-message computation of apiRequest's non-OK branch:
start from `HTTP <status>`; try `JSON.parse(errorText)` and
`errorJson.detail || errorMessage`; on any throw fall back to
`errorText || errorMessage`. -/
def apiRequestErrorMessage (status : ℕ) (b : ErrorBody) : String :=
  let base := "HTTP " ++ toString status
  match b.parsed with
  | none => jsOr b.text base
  | some .jnull => jsOr b.text base
  | some .jother => base
  | some (.jobj none) => base
  | some (.jobj (some d)) => jsOr d base

/-- apiRequest: resolves with the body on an OK response; rejects with an
ApiError carrying the status on a non-OK response; maps a TypeError whose
message mentions fetch to `Server unavailable` (status 0) and any other
thrown value to `Unexpected error: ...` (status 0). -/
def apiRequest (α : Type) : HttpOutcome α → Except ApiError (ApiResult α)
  | .okJson a => .ok (.jsonData a)
  | .okText s => .ok (.textData s)
  | .httpError st b => .error ⟨apiRequestErrorMessage st b, st⟩
  | .thrownTypeError m =>
      if includesFetch m then .error ⟨"Server unavailable", 0⟩
      else .error ⟨"Unexpected error: TypeError: " ++ m, 0⟩
  | .thrownOther d => .error ⟨"Unexpected error: " ++ d, 0⟩

/-- The message rule exactly as the claim under check words it: the JSON
body's detail when the body parses as JSON with a detail, otherwise the raw
body text, otherwise `HTTP <status>`. -/
def claimErrorMessage (status : ℕ) (b : ErrorBody) : String :=
  match b.parsed with
  | some (.jobj (some d)) => d
  | _ => if b.text = "" then "HTTP " ++ toString status else b.text

/-! ## updateSettings (api.ts, lines 88-101) -/

/-- What updateSettings does with a payload: either it throws (rejects)
before any network traffic, or it issues exactly one PUT whose JSON body is
the given entry list. -/
inductive UpdateAction (α : Type) where
  | rejected (msg : String)
  | request (body : List (String × α))
  deriving DecidableEq, Repr

/-- updateSettings: drop entries whose value is undefined or null, reject
when nothing remains, otherwise send the cleaned payload. -/
def updateSettings (α : Type) (payload : List (String × Option α)) :
    UpdateAction α :=
  let cleanPayload := payload.filterMap fun kv => kv.2.map fun v => (kv.1, v)
  if cleanPayload.length = 0 then .rejected "No valid settings to update"
  else .request cleanPayload

/-! ## validateSettings (api.ts, lines 193-252) -/

/-- JS `Number.isInteger` on a rational. -/
def isIntegerQ (v : ℚ) : Bool := v.den == 1

/-- One `if (field !== undefined) ... errors.push(msg)` block of
validateSettings: emits `msg` when the field is provided and fails its
test. -/
def fieldCheck {α : Type} (o : Option α) (bad : α → Bool) (msg : String) :
    List String :=
  match o with
  | none => []
  | some v => if bad v then [msg] else []

/-- The regex `[0-2][0-9]:[0-5][0-9]` (anchored) used for the session-open
time fields. -/
def timeRegexTest (t : String) : Bool :=
  match t.data with
  | [h1, h2, c, m1, m2] =>
      (decide ('0' ≤ h1) && decide (h1 ≤ '2')) && h2.isDigit && c == ':' &&
      (decide ('0' ≤ m1) && decide (m1 ≤ '5')) && m2.isDigit
  | _ => false

/-- A valid 24-hour HH:MM wall-clock time of day (what the claim under
check asserts the code validates): two digit pairs with hour < 24 and
minute < 60. -/
def validTimeOfDay (t : String) : Bool :=
  match t.data with
  | [h1, h2, c, m1, m2] =>
      h1.isDigit && h2.isDigit && c == ':' && m1.isDigit && m2.isDigit &&
      decide ((h1.toNat - '0'.toNat) * 10 + (h2.toNat - '0'.toNat) < 24) &&
      decide ((m1.toNat - '0'.toNat) * 10 + (m2.toNat - '0'.toNat) < 60)
  | _ => false

/-- validateSettings of the typed client, block by block in source order. -/
def validateSettings (s : SettingsPatch) : List String :=
  fieldCheck s.smt_strength_threshold
      (fun v => decide (v < 0) || decide (v > 1))
      "SMT Strength Threshold must be between 0 and 1"
  ++ fieldCheck s.killzone_priorities
      (fun l => !(l.all isIntegerQ))
      "Killzone priorities must be array of integers"
  ++ fieldCheck s.refresh_interval
      (fun v => !(isIntegerQ v) || decide (v < 1000))
      "Refresh interval must be at least 1000ms"
  ++ fieldCheck s.max_signals_display
      (fun v => !(isIntegerQ v) || decide (v < 1))
      "Max signals display must be positive integer"
  ++ fieldCheck s.divergence_threshold
      (fun v => decide (v < 0.1) || decide (v > 2.0))
      "Divergence threshold must be between 0.1 and 2.0"
  ++ fieldCheck s.confirmation_candles
      (fun v => !(isIntegerQ v) || decide (v < 1) || decide (v > 10))
      "Confirmation candles must be between 1 and 10"
  ++ fieldCheck s.volume_multiplier
      (fun v => decide (v < 1.0) || decide (v > 5.0))
      "Volume multiplier must be between 1.0 and 5.0"
  ++ fieldCheck s.london_open (fun t => !(timeRegexTest t))
      "london open must be in HH:MM format"
  ++ fieldCheck s.ny_open (fun t => !(timeRegexTest t))
      "ny open must be in HH:MM format"
  ++ fieldCheck s.asia_open (fun t => !(timeRegexTest t))
      "asia open must be in HH:MM format"

/-- The documented bounds of the claim under check, parameterized by the
predicate required of the session-open time fields. -/
def settingsBounds (timeOK : String → Bool) (s : SettingsPatch) : Prop :=
  (∀ v, s.smt_strength_threshold = some v → 0 ≤ v ∧ v ≤ 1) ∧
  (∀ l, s.killzone_priorities = some l → ∀ p ∈ l, isIntegerQ p = true) ∧
  (∀ v, s.refresh_interval = some v → isIntegerQ v = true ∧ 1000 ≤ v) ∧
  (∀ v, s.max_signals_display = some v → isIntegerQ v = true ∧ 1 ≤ v) ∧
  (∀ v, s.divergence_threshold = some v → 0.1 ≤ v ∧ v ≤ 2.0) ∧
  (∀ v, s.confirmation_candles = some v →
      isIntegerQ v = true ∧ 1 ≤ v ∧ v ≤ 10) ∧
  (∀ v, s.volume_multiplier = some v → 1.0 ≤ v ∧ v ≤ 5.0) ∧
  (∀ t, s.london_open = some t → timeOK t = true) ∧
  (∀ t, s.ny_open = some t → timeOK t = true) ∧
  (∀ t, s.asia_open = some t → timeOK t = true)

/-- A patch providing only `london_open = "25:00"`: matches the code's
regex although 25:00 is not a time of day. -/
def patch2500 : SettingsPatch :=
  ⟨none, none, none, none, none, none, none, some "25:00", none, none⟩

/-! ## fetchAllData (api.ts, lines 158-181)

`Promise.allSettled` never rejects, so fetchAllData is a total function of
the five settled outcomes; each outcome is `.ok v` (fulfilled) or
`.error r` (rejected with reason `r`). -/

/-- The `errors` record of fetchAllData's result. -/
structure AllDataErrors where
  market : Option String
  signals : Option String
  killzones : Option String
  health : Option String
  settings : Option String
  deriving DecidableEq, Repr

/-- fetchAllData's resolved value. -/
structure AllData where
  marketData : List MarketData
  smtSignals : List SMTSignal
  killzones : Option KillzonesResponse
  health : Option HealthStatus
  settings : Option Settings
  errors : AllDataErrors
  deriving DecidableEq, Repr

/-- fetchAllData over the five settled fetches: a fulfilled source passes
through, a rejected one is replaced by its neutral default and its reason
recorded under `errors`. -/
def fetchAllData (market : Except String (List MarketData))
    (signals : Except String (List SMTSignal))
    (killzones : Except String KillzonesResponse)
    (health : Except String HealthStatus)
    (settings : Except String Settings) : AllData :=
  { marketData := match market with | .ok v => v | .error _ => []
    smtSignals := match signals with | .ok v => v | .error _ => []
    killzones := match killzones with | .ok v => some v | .error _ => none
    health := match health with | .ok v => some v | .error _ => none
    settings := match settings with | .ok v => some v | .error _ => none
    errors :=
      { market := match market with | .ok _ => none | .error r => some r
        signals := match signals with | .ok _ => none | .error r => some r
        killzones := match killzones with | .ok _ => none | .error r => some r
        health := match health with | .ok _ => none | .error r => some r
        settings := match settings with | .ok _ => none | .error r => some r } }

/-! ## The defensive api client of the dashboard variant
(src/services/api.ts bundled with SMTTradingDashboard.tsx) -/

/-- A fulfilled JSON value that is either an array of `α` or something
else (the client re-checks `Array.isArray`). -/
inductive JsArray (α : Type) where
  | arr (items : List α)
  | nonArray
  deriving DecidableEq, Repr

/-- fetchMarketData: the array on success, `[]` on a non-array body, `[]`
on any error (the catch block). -/
def fetchMarketData : Except ApiError (JsArray MarketData) → List MarketData
  | .ok (.arr l) => l
  | .ok .nonArray => []
  | .error _ => []

/-- The shapes the smt-signals response can take, as far as fetchSMTSignals
inspects it. -/
inductive SMTResponse where
  | objWithSignals (signals : List SMTSignal)
  | arrayResponse (items : List SMTSignal)
  | objOther
  | nullish
  deriving DecidableEq, Repr

/-- fetchSMTSignals: `response.signals` when it is an array, the response
itself when that is an array, `[]` otherwise, `[]` on any error. -/
def fetchSMTSignals : Except ApiError SMTResponse → List SMTSignal
  | .ok (.objWithSignals l) => l
  | .ok (.arrayResponse l) => l
  | .ok .objOther => []
  | .ok .nullish => []
  | .error _ => []

/-- fetchKillzones: the data on success, `null` on any error. -/
def fetchKillzones : Except ApiError KillzoneInfo → Option KillzoneInfo
  | .ok v => some v
  | .error _ => none

/-- fetchHealth: the data on success, `null` on any error. -/
def fetchHealth : Except ApiError HealthStatus → Option HealthStatus
  | .ok v => some v
  | .error _ => none

/-- The hard-coded default settings object of the defensive client. -/
def defaultSettings : Settings :=
  ⟨0.7, [1, 2, 3], 30000, 10, 0.5, 3, 1.5, "08:00", "13:30", "00:00"⟩

/-- The required-fields check of fetchSettings (`requiredFields.every`). -/
def hasAllRequired (d : SettingsPatch) : Bool :=
  d.smt_strength_threshold.isSome && d.killzone_priorities.isSome &&
  d.refresh_interval.isSome && d.max_signals_display.isSome

/-- The spread `{ ...defaultSettings, ...data }`: fetched fields win,
absent fields fall back to the defaults. -/
def mergeWithDefaults (d : SettingsPatch) : Settings :=
  { smt_strength_threshold :=
      d.smt_strength_threshold.getD defaultSettings.smt_strength_threshold
    killzone_priorities :=
      d.killzone_priorities.getD defaultSettings.killzone_priorities
    refresh_interval := d.refresh_interval.getD defaultSettings.refresh_interval
    max_signals_display :=
      d.max_signals_display.getD defaultSettings.max_signals_display
    divergence_threshold :=
      d.divergence_threshold.getD defaultSettings.divergence_threshold
    confirmation_candles :=
      d.confirmation_candles.getD defaultSettings.confirmation_candles
    volume_multiplier := d.volume_multiplier.getD defaultSettings.volume_multiplier
    london_open := d.london_open.getD defaultSettings.london_open
    ny_open := d.ny_open.getD defaultSettings.ny_open
    asia_open := d.asia_open.getD defaultSettings.asia_open }

/-- fetchSettings of the defensive client: on success with all four
required fields, the fetched patch merged over the defaults; defaults when
a required field is missing (the thrown Error is caught) or on any other
error. -/
def fetchSettings : Except ApiError SettingsPatch → Settings
  | .ok d => if hasAllRequired d then mergeWithDefaults d else defaultSettings
  | .error _ => defaultSettings

/-- A success body carrying exactly the four required fields. -/
def requiredOnlyPatch : SettingsPatch :=
  ⟨some 0.8, some [1, 2, 3], some 30000, some 10,
   none, none, none, none, none, none⟩

/-! ## SMTTradingDashboard loadData -/

/-- The dashboard component state (the `useState` record). -/
structure DashboardState where
  marketData : List (String × MarketData)
  smtSignals : List SMTSignal
  killzoneInfo : Option KillzoneInfo
  healthStatus : Option HealthStatus
  loading : Bool
  error : Option String
  deriving DecidableEq, Repr

/-- JS object property assignment `obj[k] = v`: replace in place when the
key exists, append otherwise. -/
def objInsert (m : List (String × MarketData)) (k : String) (v : MarketData) :
    List (String × MarketData) :=
  if m.any fun p => p.1 == k then m.map fun p => if p.1 == k then (k, v) else p
  else m ++ [(k, v)]

/-- The `marketObj` build loop: `market.value.forEach(item =>
marketObj[item.symbol] = item)`. -/
def buildMarketObj (items : List MarketData) : List (String × MarketData) :=
  items.foldl (fun acc it => objInsert acc it.symbol it) []

/-- One loadData cycle as a function of the previous state and the four
settled fetch outcomes: rebuild the market map from scratch when the
market fetch fulfilled with an array (empty otherwise), replace the signal
list (empty unless fulfilled with an array), and keep the previous
killzone/health values when those fetches rejected.  The cycle ends with
`loading = false` and `error = null`. -/
def loadData (prev : DashboardState)
    (market : Except String (JsArray MarketData))
    (signals : Except String (JsArray SMTSignal))
    (killzone : Except String (Option KillzoneInfo))
    (health : Except String (Option HealthStatus)) : DashboardState :=
  let marketObj := match market with
    | .ok (.arr l) => buildMarketObj l
    | _ => []
  let signalsArray := match signals with
    | .ok (.arr l) => l
    | _ => []
  { prev with
    marketData := marketObj
    smtSignals := signalsArray
    killzoneInfo := match killzone with
      | .ok v => v
      | .error _ => prev.killzoneInfo
    healthStatus := match health with
      | .ok v => v
      | .error _ => prev.healthStatus
    loading := false
    error := none }

/-- A previous dashboard state holding one market snapshot. -/
def prevDash : DashboardState :=
  ⟨[("QQQ", ⟨"QQQ", 100⟩)], [], none, none, false, none⟩

/-! ## SMTSignalsPanel (three variants) -/

/-- The panel's `signals` prop at runtime: null/undefined, a non-array, or
an array. -/
inductive SignalsProp where
  | nullish
  | nonArray
  | arr (signals : List SMTSignal)

/-- The well-formedness test of safeSignals: the entry carries `id`,
`signal_type` and `timestamp` properties. -/
def wellFormedSignal (s : SMTSignal) : Bool :=
  s.hasId && s.hasSignalType && s.hasTimestamp

/-- safeSignals: `[]` unless the prop is an array, then drop malformed
entries. -/
def safeSignals : SignalsProp → List SMTSignal
  | .nullish => []
  | .nonArray => []
  | .arr signals => signals.filter wellFormedSignal

/-- filteredSignals: the two early-false filter conditions of the panel,
in source order. -/
def filteredSignals (sp : SignalsProp) (signalTypeFilter : String)
    (minStrengthFilter : ℚ) : List SMTSignal :=
  (safeSignals sp).filter fun signal =>
    if !(signalTypeFilter == "all") && !(signal.signal_type == signalTypeFilter)
    then false
    else if decide (signal.strength < minStrengthFilter) then false
    else true

/-- The sort comparator `(a, b) => tb - ta`: `a` precedes `b` when `a` is
at least as new. -/
def newerFirst (a b : SMTSignal) : Prop := b.timestamp ≤ a.timestamp

instance : DecidableRel newerFirst :=
  fun a b => inferInstanceAs (Decidable (b.timestamp ≤ a.timestamp))

instance : IsTotal SMTSignal newerFirst := ⟨fun a b => le_total b.timestamp a.timestamp⟩

instance : IsTrans SMTSignal newerFirst :=
  ⟨fun _ _ _ hab hbc => le_trans hbc hab⟩

/-- `.sort((a, b) => new Date(b.timestamp).getTime() - new
Date(a.timestamp).getTime())`. -/
def sortNewestFirst (l : List SMTSignal) : List SMTSignal :=
  List.insertionSort newerFirst l

/-- recentSignals of the filtered panel variant: sort newest-first, then
`slice(0, 6)`. -/
def recentSignals (filtered : List SMTSignal) : List SMTSignal :=
  (sortNewestFirst filtered).take 6

/-- recentSignals of the ui-kit panel variant: `signals.slice(-6)`. -/
def recentSignalsV2 (signals : List SMTSignal) : List SMTSignal :=
  signals.drop (signals.length - 6)

/-- the plain panel variant renders `signals.slice(-3)`. -/
def signalsSlice3 (signals : List SMTSignal) : List SMTSignal :=
  signals.drop (signals.length - 3)

/-- An older and a newer signal (timestamps 1 and 2). -/
def sigOld : SMTSignal := ⟨true, true, true, "bullish_divergence", 1, 1, false⟩

/-- see `sigOld`. -/
def sigNew : SMTSignal := ⟨true, true, true, "bearish_divergence", 1, 2, false⟩

/-! ## useApi (src/hooks/useApi.tsx) -/

/-- The useApi hook state: the UseApiState record plus the separate
`retries` counter state. -/
structure UseApiState where
  data : Option String
  loading : Bool
  error : Option String
  lastFetch : Option ℕ
  retries : ℕ
  deriving DecidableEq, Repr

/-- One invocation of an `execute` closure against a fetcher that rejects
with `msg`.  `r` is the retries value the closure captured from the render
that created it (`useCallback` with `retries` among its deps) — not the
live counter: the guard `retries < retryCount` and the delay
`1000 * Math.pow(2, retries)` both read this captured value, while
`setRetries(prev => prev + 1)` bumps the live counter functionally.
`setTimeout(execute, ...)` re-schedules the very same closure, so a
scheduled retry is returned as `some (r, delay)` carrying the same
captured value `r`. -/
def executeClosureOnFailure (retryCount : ℕ) (msg : String) (r : ℕ)
    (s : UseApiState) : UseApiState × Option (ℕ × ℕ) :=
  let s1 := { s with loading := true, error := none }
  if r < retryCount then
    ({ s1 with retries := s1.retries + 1 }, some (r, 1000 * 2 ^ r))
  else
    ({ s1 with loading := false, error := some msg }, none)

/-- Up to `n` invocations of the retry chain against an always-failing
fetcher, starting from the closure with captured value `r`; each scheduled
attempt re-runs the closure returned by the previous one (the same stale
closure), collecting the scheduled delays, and the chain stops early only
if some attempt takes the error branch. -/
def failingChain (retryCount : ℕ) (msg : String) :
    ℕ → ℕ → UseApiState → UseApiState × List ℕ
  | 0, _, s => (s, [])
  | n + 1, r, s =>
      match executeClosureOnFailure retryCount msg r s with
      | (s1, some rd) =>
          let rest := failingChain retryCount msg n rd.1 s1
          (rest.1, rd.2 :: rest.2)
      | (s1, none) => (s1, [])

/-! ## useWebSocket (src/hooks/useApi.tsx) -/

/-- WebSocket hook state: the reconnect counter ref, the readyState
(1 = OPEN, 3 = CLOSED), and whether the last handled event scheduled a
`setTimeout(connect, reconnectInterval)`. -/
structure WsState where
  reconnectAttempts : ℕ
  readyState : ℕ
  scheduledReconnect : Bool
  deriving DecidableEq, Repr

/-- The socket events the hook installs handlers for. -/
inductive WsEvent where
  | opened
  | errored
  | closed
  deriving DecidableEq, Repr

/-- One handler invocation: `onopen` records OPEN and resets the counter;
`onerror` records CLOSED; `onclose` records CLOSED and schedules a
reconnect only while the counter is below the maximum, bumping it. -/
def wsStep (maxReconnectAttempts : ℕ) (s : WsState) : WsEvent → WsState
  | .opened =>
      { s with readyState := 1, reconnectAttempts := 0,
               scheduledReconnect := false }
  | .errored => { s with readyState := 3, scheduledReconnect := false }
  | .closed =>
      if s.reconnectAttempts < maxReconnectAttempts then
        { s with readyState := 3,
                 reconnectAttempts := s.reconnectAttempts + 1,
                 scheduledReconnect := true }
      else { s with readyState := 3, scheduledReconnect := false }

/-- The destructuring default `maxReconnectAttempts = 5`. -/
def wsMaxReconnectAttempts (opt : Option ℕ) : ℕ := opt.getD 5

/-- A non-OK body whose text parses as a JSON object with no `detail`
property (text is the two-character string of an opening and a closing
curly brace). -/
def emptyObjBody : ErrorBody := ⟨"\x7b\x7d", some (.jobj none)⟩

/-! ## Theorems -/

/-- C1 counterexample: on a successful settings response carrying only the
four required fields, fetchSettings does not resolve to the fetched data
unchanged — the absent optional fields are filled in from the defaults
(here `divergence_threshold` becomes 0.5 although the response had none). -/
theorem fetchSettings_success_not_unchanged :
    toPatch (fetchSettings (.ok requiredOnlyPatch)) ≠ requiredOnlyPatch := by
  intro h
  have h2 := congrArg SettingsPatch.divergence_threshold h
  simp [toPatch, fetchSettings, requiredOnlyPatch, mergeWithDefaults,
    defaultSettings, hasAllRequired] at h2

/-- C1 (amended): the transport-facing read accessors of the dashboard's
api client never reject: on any error fetchMarketData and fetchSMTSignals
resolve to `[]`, fetchKillzones to `null` and fetchSettings to the default
settings object (threshold 0.7, refresh 30000, max display 10); on success
fetchMarketData/fetchSMTSignals/fetchKillzones resolve to the fetched
data, while fetchSettings resolves to the fetched settings merged over the
defaults — equal to the fetched data exactly when every field was
present — and falls back to the defaults when a required field is
missing. -/
theorem readAccessors_never_reject :
    (∀ e : ApiError,
        fetchMarketData (.error e) = [] ∧ fetchSMTSignals (.error e) = [] ∧
        fetchKillzones (.error e) = none ∧
        fetchSettings (.error e) = defaultSettings) ∧
    defaultSettings.smt_strength_threshold = 0.7 ∧
    defaultSettings.refresh_interval = 30000 ∧
    defaultSettings.max_signals_display = 10 ∧
    (∀ l, fetchMarketData (.ok (.arr l)) = l) ∧
    fetchMarketData (.ok .nonArray) = [] ∧
    (∀ l, fetchSMTSignals (.ok (.objWithSignals l)) = l) ∧
    (∀ l, fetchSMTSignals (.ok (.arrayResponse l)) = l) ∧
    (∀ v, fetchKillzones (.ok v) = some v) ∧
    (∀ d, hasAllRequired d = true →
        fetchSettings (.ok d) = mergeWithDefaults d) ∧
    (∀ d, hasAllRequired d = false →
        fetchSettings (.ok d) = defaultSettings) ∧
    (∀ s : Settings, fetchSettings (.ok (toPatch s)) = s) := by
  refine ⟨fun e => ⟨rfl, rfl, rfl, rfl⟩, rfl, rfl, rfl, fun l => rfl, rfl,
    fun l => rfl, fun l => rfl, fun v => rfl,
    fun d h => by simp [fetchSettings, h],
    fun d h => by simp [fetchSettings, h],
    fun s => rfl⟩

/-- C1 witness: both settings hypotheses are satisfiable — a body with all
required fields is merged, a body missing them yields the defaults. -/
theorem readAccessors_never_reject_witness :
    hasAllRequired requiredOnlyPatch = true ∧
    fetchSettings (.ok requiredOnlyPatch) = mergeWithDefaults requiredOnlyPatch ∧
    hasAllRequired ⟨none, none, none, none, none, none, none, none, none, none⟩
      = false ∧
    fetchSettings
        (.ok ⟨none, none, none, none, none, none, none, none, none, none⟩)
      = defaultSettings := by
  refine ⟨rfl,
    readAccessors_never_reject.2.2.2.2.2.2.2.2.2.1 requiredOnlyPatch rfl, rfl,
    readAccessors_never_reject.2.2.2.2.2.2.2.2.2.2.1 _ rfl⟩

/-- C2 counterexample: when the market fetch rejects, loadData resets the
market map to empty instead of retaining the previous snapshot. -/
theorem loadData_market_failure_clears :
    (loadData prevDash (.error "Server unavailable") (.ok (.arr []))
        (.ok none) (.ok none)).marketData ≠ prevDash.marketData := by
  decide

/-- C2 (amended): if the market-data fetch fails during a loadData cycle,
the dashboard's market-data map afterwards is the empty map — the previous
snapshot is not retained; killzoneInfo and healthStatus, by contrast, do
keep their previous values when their respective fetches fail. -/
theorem loadData_failure_semantics :
    (∀ (prev : DashboardState) (r : String)
        (s : Except String (JsArray SMTSignal))
        (k : Except String (Option KillzoneInfo))
        (h : Except String (Option HealthStatus)),
        (loadData prev (.error r) s k h).marketData = []) ∧
    (∀ (prev : DashboardState) (m : Except String (JsArray MarketData))
        (s : Except String (JsArray SMTSignal)) (r : String)
        (h : Except String (Option HealthStatus)),
        (loadData prev m s (.error r) h).killzoneInfo = prev.killzoneInfo) ∧
    (∀ (prev : DashboardState) (m : Except String (JsArray MarketData))
        (s : Except String (JsArray SMTSignal))
        (k : Except String (Option KillzoneInfo)) (r : String),
        (loadData prev m s k (.error r)).healthStatus = prev.healthStatus) := by
  refine ⟨fun prev r s k h => rfl, fun prev m s r h => rfl,
    fun prev m s k r => rfl⟩

/-- C7: one loadData cycle is idempotent for fixed fetch outcomes — running
it a second time with identical outcomes leaves the dashboard state
unchanged. -/
theorem loadData_idempotent (prev : DashboardState)
    (m : Except String (JsArray MarketData))
    (s : Except String (JsArray SMTSignal))
    (k : Except String (Option KillzoneInfo))
    (h : Except String (Option HealthStatus)) :
    loadData (loadData prev m s k h) m s k h = loadData prev m s k h := by
  cases k <;> cases h <;> rfl

/-- C3: the panel's filtered list is exactly the well-formed signals whose
type matches the selected filter (or the filter is "all") and whose
strength is at least the chosen minimum, in their original relative
order. -/
theorem panel_filter_spec (l : List SMTSignal) (tf : String) (m : ℚ) :
    filteredSignals (.arr l) tf m
      = l.filter fun s =>
          wellFormedSignal s && (tf == "all" || s.signal_type == tf) &&
          decide (m ≤ s.strength) := by
  show (l.filter wellFormedSignal).filter _ = _
  rw [List.filter_filter]
  refine List.filter_congr fun s _ => ?_
  rcases lt_or_le s.strength m with h3 | h3
  · by_cases h1 : tf = "all" <;> by_cases h2 : s.signal_type = tf <;>
      simp [h1, h2, h3, not_le.mpr h3, Bool.and_comm]
  · by_cases h1 : tf = "all" <;> by_cases h2 : s.signal_type = tf <;>
      simp [h1, h2, h3, not_lt.mpr h3, Bool.and_comm]

/-- C4 counterexample: the `slice(-6)` panel variant is not newest-first —
on an oldest-first input of two signals it displays them oldest-first. -/
theorem sliceLast6_not_newest_first :
    ¬ List.Sorted newerFirst (recentSignalsV2 [sigOld, sigNew]) := by
  have h : recentSignalsV2 [sigOld, sigNew] = [sigOld, sigNew] := rfl
  rw [h]
  simp [List.sorted_cons, newerFirst, sigOld, sigNew]

/-- C4 (amended): each panel variant displays at most its cap of signals
(6, 6 and 3 respectively); the sorted `slice(0, 6)` variant is ordered
newest-first by timestamp, while the `slice(-6)` and `slice(-3)` variants
merely take the trailing signals in the input's original relative order (a
suffix of the input), which is newest-first only when the input is already
ordered oldest-first. -/
theorem signal_lists_bounded (l : List SMTSignal) :
    List.Sorted newerFirst (recentSignals l) ∧ (recentSignals l).length ≤ 6 ∧
    (recentSignalsV2 l).length ≤ 6 ∧ recentSignalsV2 l <:+ l ∧
    (signalsSlice3 l).length ≤ 3 ∧ signalsSlice3 l <:+ l := by
  refine ⟨?_, ?_, ?_, List.drop_suffix _ _, ?_, List.drop_suffix _ _⟩
  · exact List.Pairwise.sublist (List.take_sublist _ _)
      (List.sorted_insertionSort newerFirst l)
  · simp [recentSignals, List.length_take]
  · simp only [recentSignalsV2, List.length_drop]
    omega
  · simp only [signalsSlice3, List.length_drop]
    omega

/-- A fieldCheck block contributes no error exactly when the field, if
provided, passes its test. -/
theorem fieldCheck_eq_nil {α : Type} (o : Option α) (bad : α → Bool)
    (msg : String) :
    fieldCheck o bad msg = [] ↔ ∀ v, o = some v → bad v = false := by
  cases o with
  | none => simp [fieldCheck]
  | some v => rcases hb : bad v <;> simp [fieldCheck, hb]

/-- C5 counterexample: validateSettings accepts `london_open = "25:00"`,
which is not a valid 24-hour time of day — the claimed equivalence fails
at this patch. -/
theorem validateSettings_accepts_invalid_time :
    validateSettings patch2500 = [] ∧
    ¬ settingsBounds validTimeOfDay patch2500 := by
  constructor
  · rfl
  · intro h
    exact absurd (h.2.2.2.2.2.2.2.1 "25:00" rfl) (by decide)

/-- C5 (amended): validateSettings returns an empty error list iff every
provided field satisfies its bound — threshold in [0, 1], priorities all
integers, refresh interval an integer ≥ 1000, max display a positive
integer, divergence threshold in [0.1, 2.0], confirmation candles an
integer in [1, 10], volume multiplier in [1.0, 5.0] — and every provided
session-open time matches the pattern `[0-2][0-9]:[0-5][0-9]` (which also
admits the non-times 24:00 through 29:59). -/
theorem validateSettings_empty_iff (s : SettingsPatch) :
    validateSettings s = [] ↔ settingsBounds timeRegexTest s := by
  simp only [validateSettings, List.append_eq_nil, fieldCheck_eq_nil,
    settingsBounds, and_assoc]
  refine and_congr (forall_congr' fun v => imp_congr_right fun _ => ?_)
    (and_congr (forall_congr' fun l => imp_congr_right fun _ => ?_)
    (and_congr (forall_congr' fun v => imp_congr_right fun _ => ?_)
    (and_congr (forall_congr' fun v => imp_congr_right fun _ => ?_)
    (and_congr (forall_congr' fun v => imp_congr_right fun _ => ?_)
    (and_congr (forall_congr' fun v => imp_congr_right fun _ => ?_)
    (and_congr (forall_congr' fun v => imp_congr_right fun _ => ?_)
    (and_congr (forall_congr' fun t => imp_congr_right fun _ => ?_)
    (and_congr (forall_congr' fun t => imp_congr_right fun _ => ?_)
      (forall_congr' fun t => imp_congr_right fun _ => ?_)))))))))
  · simp [not_lt]
  · simp [List.all_eq_true]
  · simp [not_lt]
  · simp [not_lt]
  · simp [not_lt]
  · simp [not_lt, and_assoc]
  · simp [not_lt]
  · simp
  · simp
  · simp

/-- C6: fetchAllData (which, built on `Promise.allSettled`, is a total
function of the five settled outcomes and so never rejects) is
componentwise: each component of the result — and its `errors` slot —
depends only on its own fetch outcome; a fulfilled source passes through
unchanged, a rejected one is replaced by its neutral default (`[]` for
market data and signals, `null` for killzones, health and settings) with
the reason recorded under `errors`. -/
theorem fetchAllData_componentwise :
    (∀ m s k h t s2 k2 h2 t2,
        (fetchAllData m s k h t).marketData
          = (fetchAllData m s2 k2 h2 t2).marketData ∧
        (fetchAllData m s k h t).errors.market
          = (fetchAllData m s2 k2 h2 t2).errors.market) ∧
    (∀ s m k h t m2 k2 h2 t2,
        (fetchAllData m s k h t).smtSignals
          = (fetchAllData m2 s k2 h2 t2).smtSignals ∧
        (fetchAllData m s k h t).errors.signals
          = (fetchAllData m2 s k2 h2 t2).errors.signals) ∧
    (∀ k m s h t m2 s2 h2 t2,
        (fetchAllData m s k h t).killzones
          = (fetchAllData m2 s2 k h2 t2).killzones ∧
        (fetchAllData m s k h t).errors.killzones
          = (fetchAllData m2 s2 k h2 t2).errors.killzones) ∧
    (∀ h m s k t m2 s2 k2 t2,
        (fetchAllData m s k h t).health
          = (fetchAllData m2 s2 k2 h t2).health ∧
        (fetchAllData m s k h t).errors.health
          = (fetchAllData m2 s2 k2 h t2).errors.health) ∧
    (∀ t m s k h m2 s2 k2 h2,
        (fetchAllData m s k h t).settings
          = (fetchAllData m2 s2 k2 h2 t).settings ∧
        (fetchAllData m s k h t).errors.settings
          = (fetchAllData m2 s2 k2 h2 t).errors.settings) ∧
    (∀ v s k h t,
        (fetchAllData (.ok v) s k h t).marketData = v ∧
        (fetchAllData (.ok v) s k h t).errors.market = none) ∧
    (∀ r s k h t,
        (fetchAllData (.error r) s k h t).marketData = [] ∧
        (fetchAllData (.error r) s k h t).errors.market = some r) ∧
    (∀ v m k h t,
        (fetchAllData m (.ok v) k h t).smtSignals = v ∧
        (fetchAllData m (.ok v) k h t).errors.signals = none) ∧
    (∀ r m k h t,
        (fetchAllData m (.error r) k h t).smtSignals = [] ∧
        (fetchAllData m (.error r) k h t).errors.signals = some r) ∧
    (∀ v m s h t,
        (fetchAllData m s (.ok v) h t).killzones = some v ∧
        (fetchAllData m s (.ok v) h t).errors.killzones = none) ∧
    (∀ r m s h t,
        (fetchAllData m s (.error r) h t).killzones = none ∧
        (fetchAllData m s (.error r) h t).errors.killzones = some r) ∧
    (∀ v m s k t,
        (fetchAllData m s k (.ok v) t).health = some v ∧
        (fetchAllData m s k (.ok v) t).errors.health = none) ∧
    (∀ r m s k t,
        (fetchAllData m s k (.error r) t).health = none ∧
        (fetchAllData m s k (.error r) t).errors.health = some r) ∧
    (∀ v m s k h,
        (fetchAllData m s k h (.ok v)).settings = some v ∧
        (fetchAllData m s k h (.ok v)).errors.settings = none) ∧
    (∀ r m s k h,
        (fetchAllData m s k h (.error r)).settings = none ∧
        (fetchAllData m s k h (.error r)).errors.settings = some r) := by
  refine ⟨fun m s k h t s2 k2 h2 t2 => ⟨rfl, rfl⟩,
    fun s m k h t m2 k2 h2 t2 => ⟨rfl, rfl⟩,
    fun k m s h t m2 s2 h2 t2 => ⟨rfl, rfl⟩,
    fun h m s k t m2 s2 k2 t2 => ⟨rfl, rfl⟩,
    fun t m s k h m2 s2 k2 h2 => ⟨rfl, rfl⟩,
    fun v s k h t => ⟨rfl, rfl⟩, fun r s k h t => ⟨rfl, rfl⟩,
    fun v m k h t => ⟨rfl, rfl⟩, fun r m k h t => ⟨rfl, rfl⟩,
    fun v m s h t => ⟨rfl, rfl⟩, fun r m s h t => ⟨rfl, rfl⟩,
    fun v m s k t => ⟨rfl, rfl⟩, fun r m s k t => ⟨rfl, rfl⟩,
    fun v m s k h => ⟨rfl, rfl⟩, fun r m s k h => ⟨rfl, rfl⟩⟩

/-- The cleaned payload, re-tagged with `some`, is exactly the sublist of
provided entries. -/
theorem cleanPayload_spec (α : Type) (p : List (String × Option α)) :
    (p.filterMap fun kv => kv.2.map fun v => (kv.1, v)).map
        (fun kv => (kv.1, some kv.2))
      = p.filter fun kv => kv.2.isSome := by
  induction p with
  | nil => rfl
  | cons kv t ih =>
      obtain ⟨k, v⟩ := kv
      cases v <;> simp [List.filterMap_cons, ih]

/-- C9: updateSettings rejects with `No valid settings to update` (issuing
no request — the `rejected` action carries none) exactly when every entry
of the payload is undefined or null; otherwise it issues one request whose
body is exactly the provided entries, in order. -/
theorem updateSettings_spec (α : Type) (payload : List (String × Option α)) :
    (updateSettings α payload = .rejected "No valid settings to update" ↔
      ∀ kv ∈ payload, kv.2 = none) ∧
    ((∃ kv ∈ payload, kv.2 ≠ none) →
      updateSettings α payload
          = .request (payload.filterMap fun kv => kv.2.map fun v => (kv.1, v)) ∧
      (payload.filterMap fun kv => kv.2.map fun v => (kv.1, v)).map
          (fun kv => (kv.1, some kv.2))
        = payload.filter fun kv => kv.2.isSome) := by
  have hnil : (payload.filterMap fun kv => kv.2.map fun v => (kv.1, v)).length = 0
      ↔ ∀ kv ∈ payload, kv.2 = none := by
    rw [List.length_eq_zero, List.filterMap_eq_nil_iff]
    simp [Option.map_eq_none']
  constructor
  · by_cases hc : (payload.filterMap fun kv => kv.2.map fun v => (kv.1, v)).length = 0
    · simp only [updateSettings, if_pos hc]
      exact iff_of_true trivial (hnil.mp hc)
    · simp only [updateSettings, if_neg hc]
      refine iff_of_false (by intro h; cases h) fun hall => hc (hnil.mpr hall)
  · intro hex
    have hc : ¬ (payload.filterMap fun kv => kv.2.map fun v => (kv.1, v)).length = 0 := by
      intro h0
      obtain ⟨kv, hmem, hne⟩ := hex
      exact hne (hnil.mp h0 kv hmem)
    exact ⟨by simp only [updateSettings, if_neg hc], cleanPayload_spec α payload⟩

/-- C9 witness: a payload with one provided and one null entry yields a
request carrying only the provided entry. -/
theorem updateSettings_spec_witness :
    updateSettings ℕ [("refresh_interval", some 2000), ("max_signals_display", none)]
      = .request [("refresh_interval", 2000)] := by
  have h := (updateSettings_spec ℕ
      [("refresh_interval", some 2000), ("max_signals_display", none)]).2
      ⟨("refresh_interval", some 2000), by simp, by simp⟩
  simpa using h.1

/-- C8: the retry bound the claim states is not what the code does.  The
scheduled `setTimeout(execute, ...)` re-runs the closure that captured the
render-time retries value, so each attempt reads the same stale counter:
every positive-retryCount chain schedules a retry on every attempt at the
constant delay `1000 * 2 ^ r` of its captured value `r` (1000 ms for the
initial chain), never takes the error branch, and bumps the live retries
state without bound — evaluated here concretely for retryCount 1 over
three attempts, and in general for every retryCount k + 1 and attempt
count n + 1.  The useWebSocket half of the claim does hold: a close
schedules a reconnect exactly while the attempts counter is below
maxReconnectAttempts (default 5), and every successful open resets the
counter to zero. -/
theorem retry_unbounded_and_ws_reconnect :
    (failingChain 1 "boom" 3 0 ⟨none, false, none, none, 0⟩
      = (⟨none, true, none, none, 3⟩, [1000, 1000, 1000])) ∧
    (∀ (k n : ℕ) (msg : String) (s : UseApiState),
      failingChain (k + 1) msg (n + 1) 0 s
        = ({ s with loading := true, error := none, retries := s.retries + (n + 1) },
           List.replicate (n + 1) 1000)) ∧
    (∀ (m : ℕ) (s : WsState),
      ((wsStep m s .closed).scheduledReconnect = true ↔
        s.reconnectAttempts < m) ∧
      (wsStep m s .opened).reconnectAttempts = 0) ∧
    wsMaxReconnectAttempts none = 5 := by
  refine ⟨by decide, fun k n msg => ?_, fun m s => ⟨?_, rfl⟩, rfl⟩
  · induction n with
    | zero => intro s; simp [failingChain, executeClosureOnFailure]
    | succ j ih =>
        intro s
        have hstep : executeClosureOnFailure (k + 1) msg 0 s
            = ({ s with loading := true, error := none, retries := s.retries + 1 }, some (0, 1000)) := by
          simp [executeClosureOnFailure]
        rw [failingChain, hstep]
        dsimp only
        rw [ih]
        refine congrArg₂ Prod.mk ?_ ?_
        · show ({ s with loading := true, error := none, retries := s.retries + 1 + (j + 1) } : UseApiState)
              = { s with loading := true, error := none, retries := s.retries + (j + 1 + 1) }
          have harith : s.retries + 1 + (j + 1) = s.retries + (j + 1 + 1) := by omega
          rw [harith]
        · simp [List.replicate_succ]
  · by_cases hc : s.reconnectAttempts < m <;> simp [wsStep, hc]

/-- C10 counterexample: for a non-OK 500 response whose body parses as a
JSON object without a `detail` property, apiRequest's message is
`HTTP 500`, not the raw body text the claim predicts. -/
theorem apiRequest_message_counterexample :
    apiRequest Unit (.httpError 500 emptyObjBody)
      ≠ .error ⟨claimErrorMessage 500 emptyObjBody, 500⟩ := by
  intro h
  have h2 := congrArg (fun e => match e with
    | Except.error a => a.message
    | Except.ok _ => "") h
  simp [apiRequest, apiRequestErrorMessage, claimErrorMessage, emptyObjBody,
    jsOr] at h2
  exact absurd h2 (by decide)

/-- C10 (amended): apiRequest rejects only with ApiError values; a non-OK
response yields an ApiError carrying the response status and, as message,
the JSON body's detail when the body parses as a JSON object with a
non-empty detail; the raw body text (when non-empty) when the body fails
to parse as JSON, or parses as JSON null (whose detail access throws into
the same fallback); and `HTTP <status>` otherwise — in particular when
the body parses as JSON without a usable detail.  A TypeError mentioning
fetch yields ApiError `Server unavailable` with status 0, every other
thrown value an ApiError with status 0; OK responses resolve with their
body. -/
theorem apiRequest_rejections :
    (∀ (α : Type) (st : ℕ) (b : ErrorBody) (d : String),
        b.parsed = some (.jobj (some d)) → d ≠ "" →
        apiRequest α (.httpError st b) = .error ⟨d, st⟩) ∧
    (∀ (α : Type) (st : ℕ) (b : ErrorBody),
        (b.parsed = none ∨ b.parsed = some .jnull) → b.text ≠ "" →
        apiRequest α (.httpError st b) = .error ⟨b.text, st⟩) ∧
    (∀ (α : Type) (st : ℕ) (b : ErrorBody),
        (b.parsed = none ∨ b.parsed = some .jnull) → b.text = "" →
        apiRequest α (.httpError st b)
          = .error ⟨"HTTP " ++ toString st, st⟩) ∧
    (∀ (α : Type) (st : ℕ) (b : ErrorBody),
        (b.parsed = some (.jobj none) ∨ b.parsed = some .jother ∨
          b.parsed = some (.jobj (some ""))) →
        apiRequest α (.httpError st b)
          = .error ⟨"HTTP " ++ toString st, st⟩) ∧
    (∀ (α : Type) (m : String), includesFetch m = true →
        apiRequest α (.thrownTypeError m)
          = .error ⟨"Server unavailable", 0⟩) ∧
    (∀ (α : Type) (m : String), includesFetch m = false →
        apiRequest α (.thrownTypeError m)
          = .error ⟨"Unexpected error: TypeError: " ++ m, 0⟩) ∧
    (∀ (α : Type) (d : String),
        apiRequest α (.thrownOther d) = .error ⟨"Unexpected error: " ++ d, 0⟩) ∧
    (∀ (α : Type) (a : α), apiRequest α (.okJson a) = .ok (.jsonData a)) ∧
    (∀ (α : Type) (t : String), apiRequest α (.okText t) = .ok (.textData t)) := by
  refine ⟨fun α st b d hp hd => ?_, fun α st b hp ht => ?_,
    fun α st b hp ht => ?_, fun α st b hp => ?_,
    fun α m hm => by simp [apiRequest, hm],
    fun α m hm => by simp [apiRequest, hm],
    fun α d => rfl, fun α a => rfl, fun α t => rfl⟩
  · simp [apiRequest, apiRequestErrorMessage, hp, jsOr, hd]
  · rcases hp with hp | hp <;>
      simp [apiRequest, apiRequestErrorMessage, hp, jsOr, ht]
  · rcases hp with hp | hp <;>
      simp [apiRequest, apiRequestErrorMessage, hp, jsOr, ht]
  · rcases hp with hp | hp | hp <;>
      simp [apiRequest, apiRequestErrorMessage, hp, jsOr]

/-- C10 witness: a 404 whose body carries detail `Not found` rejects with
that message and status 404; a TypeError `Failed to fetch` rejects with
`Server unavailable`, status 0. -/
theorem apiRequest_rejections_witness :
    apiRequest Unit (.httpError 404 ⟨"ignored", some (.jobj (some "Not found"))⟩)
      = .error ⟨"Not found", 404⟩ ∧
    apiRequest Unit (.thrownTypeError "Failed to fetch")
      = .error ⟨"Server unavailable", 0⟩ := by
  exact ⟨apiRequest_rejections.1 Unit 404 _ "Not found" rfl (by decide),
    apiRequest_rejections.2.2.2.2.1 Unit "Failed to fetch" (by decide)⟩
